import Mathlib

/-!
# Verification of the swifi speed-test client (server selection, fallback
orchestration, measurement session, formatting)

Shallow embedding of the Rust sources `src/server.rs`, `src/speed_test.rs`,
`src/test.rs` and `src/cli.rs`.

Modelling conventions:
* Rust `&str` / `String` text that the program inspects character by
  character is modelled as `List Char` (ASCII-faithful; Rust byte indices
  coincide with character indices on ASCII text).
* `u32` is modelled as `Nat` (parsing enforces the `< 2^32` bound exactly
  where the Rust `str::parse::<u32>` does).
* `f32` / `f64` quantities (distances, bits-per-second figures) are
  modelled as `ℚ`.
* Fallible Rust functions returning `anyhow::Result` are modelled with
  `Except Err`, where `Err` has one constructor per distinct `bail!` /
  `map_err` site of the sources.
* The external `speedtest_rs` crate (configuration fetch, server-list
  fetch, distance sort, transfer engine) is an external collaborator: it
  is modelled as a record of functions (`SpeedtestApi`, `Engine`) that the
  embedded code calls; theorems quantify over it, stating contracts as
  hypotheses where needed.
* Observable effects that the claims talk about (which engine directions
  were invoked, which per-candidate failures were logged) are returned as
  explicit traces alongside the `Except` result.
-/

deriving instance DecidableEq for Except

namespace Swifi

/-- Opaque handle for the external crate's `SpeedTestConfig`; the embedded
code only threads it through, never inspects it. -/
structure SpeedTestConfig where
  tag : Nat := 0
deriving DecidableEq

/-- The external crate's `EarthLocation`; only its `Default` value is used
by the embedded code (`Server::to_speedtest_server`). -/
structure EarthLocation where
  latitude : ℚ := 0
  longitude : ℚ := 0
deriving DecidableEq

/-- The external crate's `SpeedTestServer` record, as constructed by
`Server::to_speedtest_server` and consumed by the engine calls. -/
structure STServer where
  id : Nat
  sponsor : List Char
  name : List Char
  distance : Option ℚ
  url : List Char
  country : List Char
  host : List Char
  location : EarthLocation
deriving DecidableEq

/-- Rust `src/server.rs`: `struct Server`. -/
structure Server where
  id : Nat
  sponsor : List Char
  name : List Char
  distance_km : ℚ
  url : List Char
deriving DecidableEq

/-- Rust `src/server.rs`: `Server::to_speedtest_server`. -/
def Server.to_speedtest_server (s : Server) : STServer :=
  { id := s.id
    sponsor := s.sponsor
    name := s.name
    distance := some s.distance_km
    url := s.url
    country := []
    host := []
    location := {} }

/-- Error taxonomy: one constructor per distinct `bail!` / `map_err` site
of the sources. Opaque causes coming from the external crate are kept as
`String` payloads. -/
inductive Err where
  /-- "Failed to retrieve speedtest configuration: {e}" -/
  | configFetch (e : String)
  /-- "Failed to retrieve server list from speedtest API: {e}" -/
  | serverListFetch (e : String)
  /-- "Server ID must be a valid number" -/
  | invalidServerId
  /-- "Server with ID=\"{id}\" not found in available servers." -/
  | serverNotFound (id : Nat)
  /-- "No servers available for testing" -/
  | noServersAvailable
  /-- "Download speed test failed: {e}" -/
  | downloadFailed (e : String)
  /-- "Upload speed test failed: {e}" -/
  | uploadFailed (e : String)
  /-- "All attempts failed. Please check your connection." -/
  | allAttemptsFailed
  /-- "Unexpected error: loop finished without success or bail" -/
  | unexpectedLoopEnd
deriving DecidableEq

/-- The external `speedtest_rs` crate surface used by the server catalog:
configuration fetch, raw server-list fetch, and the distance sort
(`servers_sorted_by_distance`). Modelled as a record of pure functions;
contracts on them (e.g. sortedness of the sort's output) appear as
hypotheses of theorems. -/
structure SpeedtestApi where
  getConfiguration : Except String SpeedTestConfig
  getServerListWithConfig : SpeedTestConfig → Except String (List STServer)
  sortedByDistance : List STServer → SpeedTestConfig → List STServer

/-- The external measurement engine:
`test_download_with_progress_and_config` /
`test_upload_with_progress_and_config`, each returning a raw
bits-per-second figure (`bps_f64`) or an error. -/
structure Engine where
  download : SpeedTestConfig → STServer → Except String ℚ
  upload : SpeedTestConfig → STServer → Except String ℚ

/-- Rust `src/server.rs`: `const MAX_SPONSOR_LENGTH: usize = 20`. -/
def MAX_SPONSOR_LENGTH : Nat := 20
/-- Rust `src/server.rs`: `const MAX_NAME_LENGTH: usize = 20`. -/
def MAX_NAME_LENGTH : Nat := 20
/-- Rust `src/server.rs`: `const TOP_X_NUM_SERVERS: usize = 10`. -/
def TOP_X_NUM_SERVERS : Nat := 10
/-- Rust `src/server.rs`: `const DEFAULT_SERVER_COUNT: usize = 3`. -/
def DEFAULT_SERVER_COUNT : Nat := 3

/-- Rust `src/server.rs`: `fn ellipsize(text, max_len)`.
When `text.len() > max_len` the Rust code evaluates `&text[..max_len - 3]`
on `usize`; for `max_len < 3` the subtraction underflows (panic in debug
builds; in release it wraps and the slice index is out of bounds, also a
panic). The panic is modelled as `none`. -/
def ellipsize (text : List Char) (max_len : Nat) : Option (List Char) :=
  if text.length > max_len then
    if max_len < 3 then none
    else some (text.take (max_len - 3) ++ ['.', '.', '.'])
  else some text

/-- Rust `str::parse::<u32>`: optional leading `'+'`, then one or more
ASCII digits, value `< 2^32`; anything else is a parse error (`none`). -/
def parseU32 (s : List Char) : Option Nat :=
  let digits := match s with
    | '+' :: rest => rest
    | _ => s
  if digits.isEmpty then none
  else if digits.all Char.isDigit then
    let v := digits.foldl (fun acc c => acc * 10 + (c.toNat - 48)) 0
    if v < 4294967296 then some v else none
  else none

/-- Modelled from the spec: the spec's notion of an id string that
"parse[s] as a non-negative integer" (§4.1, §7) — a non-empty string of
decimal digits, with no magnitude bound. Used to compare the spec's parse
condition with the code's `u32` parse. -/
def isNonNegIntegerString (s : List Char) : Bool :=
  !s.isEmpty && s.all Char.isDigit

/-- Rust `src/server.rs`: `struct ServerList`. -/
structure ServerList where
  servers : List Server
deriving DecidableEq

/-- Conversion applied in `ServerList::get_servers` to each crate server
(`distance.unwrap_or(0.0)` for the distance). -/
def stToServer (s : STServer) : Server :=
  { id := s.id
    sponsor := s.sponsor
    name := s.name
    distance_km := s.distance.getD 0
    url := s.url }

/-- Rust `src/server.rs`: `ServerList::get_servers(num)`: fetch configuration,
fetch the raw server list, sort by distance via the crate, take the first
`num`, convert. -/
def ServerList.get_servers (api : SpeedtestApi) (num : Nat) :
    Except Err (List Server) :=
  match api.getConfiguration with
  | .error e => .error (.configFetch e)
  | .ok config =>
    match api.getServerListWithConfig config with
    | .error e => .error (.serverListFetch e)
    | .ok servers =>
      let sorted_servers := api.sortedByDistance servers config
      .ok (((sorted_servers.take num)).map stToServer)

/-- Rust `src/server.rs`: `ServerList::get_top_x(x)`. -/
def ServerList.get_top_x (api : SpeedtestApi) (x : Nat) :
    Except Err ServerList :=
  match ServerList.get_servers api x with
  | .error e => .error e
  | .ok servers => .ok { servers := servers }

/-- Rust `src/server.rs`: `ServerList::list_servers()`. -/
def ServerList.list_servers (api : SpeedtestApi) : Except Err ServerList :=
  ServerList.get_top_x api TOP_X_NUM_SERVERS

/-- Rust `src/server.rs`: `ServerList::select_server(server_id)`. -/
def ServerList.select_server (api : SpeedtestApi)
    (server_id : Option (List Char)) : Except Err (List Server) :=
  match server_id with
  | some id_str =>
    match parseU32 id_str with
    | none => .error .invalidServerId
    | some id =>
      match ServerList.get_servers api TOP_X_NUM_SERVERS with
      | .error e => .error e
      | .ok all_servers =>
        let filtered := all_servers.filter (fun s => s.id == id)
        if filtered.isEmpty then .error (.serverNotFound id)
        else .ok filtered
  | none => ServerList.get_servers api DEFAULT_SERVER_COUNT

/-! ## Measurement session and orchestrator (`src/speed_test.rs`) -/

/-- Rust `src/speed_test.rs`: `enum Direction`. -/
inductive Direction where
  | Download
  | Upload
  | Both
deriving DecidableEq

/-- Rust `src/speed_test.rs`: `struct SpeedMeasurement`. -/
structure SpeedMeasurement where
  mbps : ℚ
deriving DecidableEq

/-- Rust `src/speed_test.rs`: `struct SpeedTestResult`. -/
structure SpeedTestResult where
  server : Server
  download : Option SpeedMeasurement
  upload : Option SpeedMeasurement
deriving DecidableEq

/-- Rust `src/speed_test.rs`: `struct SpeedTest`. -/
structure SpeedTest where
  server : Server
  direction : Direction
deriving DecidableEq

/-- Trace marker for one call into the external measurement engine
(observable through the `info!("Performing ... speed test...")` log each
call site emits just before the call). -/
inductive EngineCall where
  | download
  | upload
deriving DecidableEq

/-- Rust `src/speed_test.rs`: `const MBPS_DIVISOR: f64 = 1_000_000.0`. -/
def MBPS_DIVISOR : ℚ := 1000000

/-- Rust `src/speed_test.rs`: `SpeedTest::calculate_mbps(bps)` (identical to
`src/test.rs`: `Test::calculate_mbps`). -/
def SpeedTest.calculate_mbps (bps : ℚ) : ℚ :=
  bps / MBPS_DIVISOR

/-- Rust `src/speed_test.rs`: `SpeedTest::should_download`. -/
def SpeedTest.should_download (t : SpeedTest) : Bool :=
  match t.direction with
  | .Download | .Both => true
  | .Upload => false

/-- Rust `src/speed_test.rs`: `SpeedTest::should_upload`. -/
def SpeedTest.should_upload (t : SpeedTest) : Bool :=
  match t.direction with
  | .Upload | .Both => true
  | .Download => false

/-- Rust `src/speed_test.rs`: `SpeedTest::run_download_test`. -/
def SpeedTest.run_download_test (eng : Engine) (config : SpeedTestConfig)
    (t : SpeedTest) : Except Err SpeedMeasurement :=
  match eng.download config t.server.to_speedtest_server with
  | .error e => .error (.downloadFailed e)
  | .ok bps => .ok { mbps := SpeedTest.calculate_mbps bps }

/-- Rust `src/speed_test.rs`: `SpeedTest::run_upload_test`. -/
def SpeedTest.run_upload_test (eng : Engine) (config : SpeedTestConfig)
    (t : SpeedTest) : Except Err SpeedMeasurement :=
  match eng.upload config t.server.to_speedtest_server with
  | .error e => .error (.uploadFailed e)
  | .ok bps => .ok { mbps := SpeedTest.calculate_mbps bps }

/-- Rust `src/speed_test.rs`: `SpeedTest::run_test`: perform the download leg
if requested (an engine failure propagates immediately via `?`), then the
upload leg if requested. Returns the trace of engine calls alongside the
result. -/
def SpeedTest.run_test (eng : Engine) (config : SpeedTestConfig)
    (t : SpeedTest) : List EngineCall × Except Err SpeedTestResult :=
  let dstep : List EngineCall × Except Err (Option SpeedMeasurement) :=
    if t.should_download then
      ([.download], (SpeedTest.run_download_test eng config t).map some)
    else ([], .ok none)
  match dstep with
  | (trD, .error e) => (trD, .error e)
  | (trD, .ok download) =>
    let ustep : List EngineCall × Except Err (Option SpeedMeasurement) :=
      if t.should_upload then
        ([.upload], (SpeedTest.run_upload_test eng config t).map some)
      else ([], .ok none)
    match ustep with
    | (trU, .error e) => (trD ++ trU, .error e)
    | (trU, .ok upload) =>
      (trD ++ trU, .ok { server := t.server, download := download,
                         upload := upload })

/-- Rust `src/speed_test.rs`: `SpeedTest::run`: fetch the speedtest
configuration, then `run_test`. -/
def SpeedTest.run (api : SpeedtestApi) (eng : Engine) (t : SpeedTest) :
    List EngineCall × Except Err SpeedTestResult :=
  match api.getConfiguration with
  | .error e => ([], .error (.configFetch e))
  | .ok speed_config => SpeedTest.run_test eng speed_config t

/-- Rust `src/cli.rs`: `struct AppConfig`. -/
structure AppConfig where
  list : Bool
  server : Option (List Char)
  direction : Direction

/-- Rust `src/cli.rs`: `AppConfig::server_id`. -/
def AppConfig.server_id (c : AppConfig) : Option (List Char) :=
  c.server

/-- The candidate loop shared (textually duplicated) by
`SpeedTest::execute` (`src/speed_test.rs:171-188`) and `do_test_config`
(`src/test.rs:155-177`): try each candidate's session in order; on success
return immediately; on failure log `(server.id, error)` and, if this was
the last candidate, bail with `AllAttemptsFailed`, otherwise continue.
`onEmpty` is what the code after the `for` loop yields (reachable only
when the candidate list is empty): `bail!("Unexpected error: ...")` in
`speed_test.rs`, `Ok(())` in `test.rs`. The first component is the list of
logged per-candidate failures. -/
def attemptLoop {α : Type} (run : Server → Except Err α)
    (onEmpty : Except Err α) :
    List Server → List (Nat × Err) → List (Nat × Err) × Except Err α
  | [], log => (log, onEmpty)
  | server :: rest, log =>
    match run server with
    | .ok result => (log, .ok result)
    | .error e =>
      if rest.isEmpty then (log ++ [(server.id, e)], .error .allAttemptsFailed)
      else attemptLoop run onEmpty rest (log ++ [(server.id, e)])

/-- Rust `src/speed_test.rs`: `SpeedTest::execute(config)`: select candidates,
fail with `NoServersAvailable` on an empty selection, otherwise run the
fallback loop. Returns the logged per-candidate failures alongside the
outcome. -/
def SpeedTest.execute (api : SpeedtestApi) (eng : Engine)
    (config : AppConfig) :
    List (Nat × Err) × Except Err SpeedTestResult :=
  match ServerList.select_server api config.server_id with
  | .error e => ([], .error e)
  | .ok servers =>
    if servers.isEmpty then ([], .error .noServersAvailable)
    else
      attemptLoop
        (fun server =>
          (SpeedTest.run api eng { server := server,
                                   direction := config.direction }).2)
        (.error .unexpectedLoopEnd) servers []

/-! ## The older variant (`src/test.rs`): `Test` and `do_test_config` -/

/-- Rust `src/test.rs`: `enum TestDirection`. -/
inductive TestDirection where
  | Download
  | Upload
  | Both
deriving DecidableEq

/-- Rust `src/test.rs`: `struct Test`. -/
structure Test where
  server : Server
  direction : TestDirection
deriving DecidableEq

/-- Rust `src/test.rs`: `Test::should_download`. -/
def Test.should_download (t : Test) : Bool :=
  match t.direction with
  | .Download | .Both => true
  | .Upload => false

/-- Rust `src/test.rs`: `Test::should_upload`. -/
def Test.should_upload (t : Test) : Bool :=
  match t.direction with
  | .Upload | .Both => true
  | .Download => false

/-- Rust `src/test.rs`: `Test::run_download_test` (result discarded after
logging the Mbps figure, hence `Unit`). -/
def Test.run_download_test (eng : Engine) (config : SpeedTestConfig)
    (server : STServer) : Except Err Unit :=
  match eng.download config server with
  | .error e => .error (.downloadFailed e)
  | .ok _ => .ok ()

/-- Rust `src/test.rs`: `Test::run_upload_test`. -/
def Test.run_upload_test (eng : Engine) (config : SpeedTestConfig)
    (server : STServer) : Except Err Unit :=
  match eng.upload config server with
  | .error e => .error (.uploadFailed e)
  | .ok _ => .ok ()

/-- Rust `src/test.rs`: `Test::run_test`: sequential download-then-upload,
each guarded by its direction flag, failures propagating via `?`. -/
def Test.run_test (eng : Engine) (config : SpeedTestConfig) (t : Test)
    (server : STServer) : Except Err Unit :=
  match (if t.should_download then Test.run_download_test eng config server
         else .ok ()) with
  | .error e => .error e
  | .ok _ =>
    match (if t.should_upload then Test.run_upload_test eng config server
           else .ok ()) with
    | .error e => .error e
    | .ok _ => .ok ()

/-- Rust `src/test.rs`: `Test::run`: fetch configuration, convert the server,
run the session. -/
def Test.run (api : SpeedtestApi) (eng : Engine) (t : Test) :
    Except Err Unit :=
  match api.getConfiguration with
  | .error e => .error (.configFetch e)
  | .ok speed_config =>
    Test.run_test eng speed_config t t.server.to_speedtest_server

/-- Rust `src/test.rs`: the `Config` consumed by `do_test_config` (its
definition lives in the variant's `cli` module; fields as used by
`do_test_config`: `server`, `direction`). -/
structure Config where
  server : Option (List Char)
  direction : TestDirection

/-- Rust `src/test.rs`: `do_test_config(config)`: same selection guard and
fallback loop as `SpeedTest::execute`; the code after the loop is
`Ok(())`. -/
def do_test_config (api : SpeedtestApi) (eng : Engine) (config : Config) :
    List (Nat × Err) × Except Err Unit :=
  match ServerList.select_server api config.server with
  | .error e => ([], .error e)
  | .ok servers =>
    if servers.isEmpty then ([], .error .noServersAvailable)
    else
      attemptLoop
        (fun server =>
          Test.run api eng { server := server,
                             direction := config.direction })
        (.ok ()) servers []

/-! ## Table formatting (`src/server.rs`: `ServerList::format_table`) -/

/-- Rust's `{:<w}` format: left-align, pad on the right with spaces up to
width `w` (text longer than `w` is not truncated). -/
def padLeftAlign (w : Nat) (s : List Char) : List Char :=
  s ++ List.replicate (w - s.length) ' '

/-- Decimal digits of a natural number. -/
def natChars (n : Nat) : List Char :=
  Nat.toDigits 10 n

/-- Round-half-to-even on `ℚ`, as Rust's float formatting rounds. -/
def roundHalfEven (x : ℚ) : ℤ :=
  let f := ⌊x⌋
  let r := x - f
  if r < 1 / 2 then f
  else if 1 / 2 < r then f + 1
  else if f % 2 = 0 then f else f + 1

/-- Rust's `{:.2}` fixed-point rendering of a (model) float, two decimal
places. -/
def fmtFixed2 (q : ℚ) : List Char :=
  let n := roundHalfEven (q * 100)
  let a := n.natAbs
  let intPart := natChars (a / 100)
  let fracPart :=
    if a % 100 < 10 then '0' :: natChars (a % 100) else natChars (a % 100)
  let core := intPart ++ '.' :: fracPart
  if n < 0 then '-' :: core else core

/-- One row of `format_table`:
`writeln!("{:<10} {:<30} {:<40} {:<10.2}", id, sponsor, name, distance)`. -/
def formatRow (s : Server) : List Char :=
  padLeftAlign 10 (natChars s.id) ++ ' ' ::
    (padLeftAlign 30 s.sponsor ++ ' ' ::
      (padLeftAlign 40 s.name ++ ' ' ::
        (padLeftAlign 10 (fmtFixed2 s.distance_km) ++ ['\n'])))

/-- The fixed heading of `format_table`: title line, column-header line,
and a line of 100 dashes. -/
def tableHeading : List Char :=
  "Available Servers:\n".toList ++
    (padLeftAlign 10 "ID".toList ++ ' ' ::
      (padLeftAlign 30 "Sponsor".toList ++ ' ' ::
        (padLeftAlign 40 "Name".toList ++ ' ' ::
          (padLeftAlign 10 "Distance".toList ++ ['\n'])))) ++
    (List.replicate 100 '-' ++ ['\n'])

/-- Rust `src/server.rs`: `ServerList::format_table`: the heading followed by
one row per server, accumulated in order. -/
def ServerList.format_table (l : ServerList) : List Char :=
  l.servers.foldl (fun output s => output ++ formatRow s) tableHeading

/-- Modelled from the spec: total ellipsize used by the spec's description
of `format_table` ("ellipsized to 20 chars before padding", §4.1); for
`max_len ≥ 3` it agrees with the code's `ellipsize`. -/
def ellipsizeSpec (text : List Char) (max_len : Nat) : List Char :=
  if text.length > max_len then text.take (max_len - 3) ++ ['.', '.', '.']
  else text

/-- Modelled from the spec: `format_table` as §4.1 describes it — same
layout, but with the sponsor ellipsized to `MAX_SPONSOR_LENGTH` and the
name ellipsized to `MAX_NAME_LENGTH` before padding. -/
def formatRowSpec (s : Server) : List Char :=
  padLeftAlign 10 (natChars s.id) ++ ' ' ::
    (padLeftAlign 30 (ellipsizeSpec s.sponsor MAX_SPONSOR_LENGTH) ++ ' ' ::
      (padLeftAlign 40 (ellipsizeSpec s.name MAX_NAME_LENGTH) ++ ' ' ::
        (padLeftAlign 10 (fmtFixed2 s.distance_km) ++ ['\n'])))

/-- Modelled from the spec: the whole table as §4.1 describes it. -/
def formatTableSpec (l : ServerList) : List Char :=
  l.servers.foldl (fun output s => output ++ formatRowSpec s) tableHeading

end Swifi

/-! ## Concrete instances used to exercise the theorems -/

open Swifi

/-- A concrete crate-side server record. -/
def mkSTServer (i : Nat) (sponsor name : String) (d : ℚ) : STServer :=
  { id := i
    sponsor := sponsor.toList
    name := name.toList
    distance := some d
    url := ("http://s" ++ toString i).toList
    country := []
    host := []
    location := {} }

/-- Four crate-side servers, in ascending distance order. -/
def demoRaw : List STServer :=
  [mkSTServer 1 "Alpha" "A-City" 5,
   mkSTServer 2 "Beta" "B-City" 10,
   mkSTServer 3 "Gamma" "C-City" 15,
   mkSTServer 4 "Delta" "D-City" 20]

/-- A concrete catalog API: both fetches succeed, and the crate's distance
sort returns `demoRaw` (already ascending). -/
def demoApi : SpeedtestApi :=
  { getConfiguration := .ok {}
    getServerListWithConfig := fun _ => .ok demoRaw
    sortedByDistance := fun _ _ => demoRaw }

/-- The converted form of the demo servers. -/
def demoServers : List Server := demoRaw.map stToServer

/-- An engine whose transfers always fail. -/
def engFailAll : Engine :=
  { download := fun _ _ => .error "connection reset"
    upload := fun _ _ => .error "connection reset" }

/-- An engine that fails for every server except id 3, which measures
42 Mbps down / 8.5 Mbps up. -/
def engThirdWorks : Engine :=
  { download := fun _ s => if s.id == 3 then .ok 42000000 else .error "net"
    upload := fun _ s => if s.id == 3 then .ok 8500000 else .error "net" }

/-- An engine whose transfers always succeed at 1 Mbps. -/
def engAllOk : Engine :=
  { download := fun _ _ => .ok 1000000
    upload := fun _ _ => .ok 1000000 }

/-- Configuration with no explicit server id, direction Both. -/
def cfgBoth : AppConfig :=
  { list := false, server := none, direction := .Both }

/-- Rust `test.rs`-variant configuration with no explicit server id. -/
def cfgTestBoth : Config :=
  { server := none, direction := .Both }

/-- A server list whose sponsor is wider than 20 characters. -/
def wideServer : Server :=
  { id := 7
    sponsor := "An Extremely Wide Sponsor".toList
    name := "Somewhere".toList
    distance_km := 3 / 2
    url := "http://wide".toList }

/-- One-row list exercising `format_table` on over-wide text. -/
def demoWideList : ServerList := { servers := [wideServer] }

/-- One-row list whose fields fit the 20-character budget. -/
def demoNarrowList : ServerList := { servers := [stToServer (mkSTServer 1 "Alpha" "A-City" 5)] }

/-- The three nearest demo servers, converted. -/
def demoTop3 : List Server :=
  [stToServer (mkSTServer 1 "Alpha" "A-City" 5),
   stToServer (mkSTServer 2 "Beta" "B-City" 10),
   stToServer (mkSTServer 3 "Gamma" "C-City" 15)]

/-- The demo server with id 3, converted. -/
def demoServer3 : Server := stToServer (mkSTServer 3 "Gamma" "C-City" 15)

/-- The session result `engThirdWorks` produces on the demo server with
id 3: 42 Mbps down, 8.5 Mbps up. -/
def demoResult3 : SpeedTestResult :=
  { server := demoServer3
    download := some { mbps := SpeedTest.calculate_mbps 42000000 }
    upload := some { mbps := SpeedTest.calculate_mbps 8500000 } }

/-! ## Helper lemmas -/

theorem attemptLoop_first_success {α : Type}
    (run : Server → Except Err α) (onEmpty : Except Err α) :
    ∀ (servers : List Server) (log : List (Nat × Err)) (i : Nat)
      (hi : i < servers.length) (r : α),
      (∀ j (hj : j < i), ∃ e,
        run (servers.get ⟨j, lt_trans hj hi⟩) = .error e) →
      run (servers.get ⟨i, hi⟩) = .ok r →
      (attemptLoop run onEmpty servers log).2 = .ok r ∧
      (attemptLoop run onEmpty servers log).1.map Prod.fst =
        log.map Prod.fst ++ (servers.take i).map Server.id := by
  intro servers
  induction servers with
  | nil => intro log i hi; exact absurd hi (by simp)
  | cons s rest ih =>
    intro log i hi r hfail hsucc
    cases i with
    | zero =>
      simp only [List.get] at hsucc
      simp [attemptLoop, hsucc]
    | succ i =>
      obtain ⟨e, he⟩ := hfail 0 (Nat.succ_pos i)
      simp only [List.get] at he hsucc
      have hrest : i < rest.length := by
        simpa [Nat.succ_lt_succ_iff] using hi
      have hne : rest.isEmpty = false := by
        cases rest with
        | nil => exact absurd hrest (by simp)
        | cons _ _ => rfl
      have step := ih (log ++ [(s.id, e)]) i hrest r
        (fun j hj => hfail (j + 1) (Nat.succ_lt_succ hj))
        hsucc
      have hstep : attemptLoop run onEmpty (s :: rest) log =
          attemptLoop run onEmpty rest (log ++ [(s.id, e)]) := by
        simp [attemptLoop, he, hne]
      refine ⟨?_, ?_⟩
      · rw [hstep]; exact step.1
      · rw [hstep, step.2]; simp [List.take_succ_cons]

theorem attemptLoop_all_fail {α : Type}
    (run : Server → Except Err α) (onEmpty : Except Err α) :
    ∀ (servers : List Server) (log : List (Nat × Err)),
      servers ≠ [] →
      (∀ s ∈ servers, ∃ e, run s = .error e) →
      (attemptLoop run onEmpty servers log).2 = .error .allAttemptsFailed ∧
      (attemptLoop run onEmpty servers log).1.map Prod.fst =
        log.map Prod.fst ++ servers.map Server.id := by
  intro servers
  induction servers with
  | nil => intro log h; exact absurd rfl h
  | cons s rest ih =>
    intro log _ hfail
    obtain ⟨e, he⟩ := hfail s (List.mem_cons_self s rest)
    cases rest with
    | nil => simp [attemptLoop, he]
    | cons s2 rest2 =>
      have step := ih (log ++ [(s.id, e)]) (by simp)
        (fun x hx => hfail x (List.mem_cons_of_mem s hx))
      have hstep : attemptLoop run onEmpty (s :: s2 :: rest2) log =
          attemptLoop run onEmpty (s2 :: rest2) (log ++ [(s.id, e)]) := by
        simp [attemptLoop, he]
      refine ⟨?_, ?_⟩
      · rw [hstep]; exact step.1
      · rw [hstep, step.2]; simp

theorem attemptLoop_nonempty_result {α : Type}
    (run : Server → Except Err α) (onEmpty : Except Err α) :
    ∀ (servers : List Server) (log : List (Nat × Err)),
      servers ≠ [] →
      (attemptLoop run onEmpty servers log).2 = .error .allAttemptsFailed ∨
      ∃ r, (attemptLoop run onEmpty servers log).2 = .ok r := by
  intro servers
  induction servers with
  | nil => intro log h; exact absurd rfl h
  | cons s rest ih =>
    intro log _
    cases hrun : run s with
    | ok r => exact Or.inr ⟨r, by simp [attemptLoop, hrun]⟩
    | error e =>
      cases rest with
      | nil => exact Or.inl (by simp [attemptLoop, hrun])
      | cons s2 rest2 =>
        have := ih (log ++ [(s.id, e)]) (by simp)
        simpa [attemptLoop, hrun, List.isEmpty] using this

theorem get_servers_error_shape (api : SpeedtestApi) (num : Nat) (e : Err)
    (h : ServerList.get_servers api num = .error e) :
    (∃ msg, e = .configFetch msg) ∨ (∃ msg, e = .serverListFetch msg) := by
  unfold ServerList.get_servers at h
  split at h
  · exact Or.inl ⟨_, (Except.error.inj h).symm⟩
  · split at h
    · exact Or.inr ⟨_, (Except.error.inj h).symm⟩
    · exact absurd h (by simp)

theorem select_server_some_error_shape (api : SpeedtestApi)
    (s : List Char) (e : Err)
    (h : ServerList.select_server api (some s) = .error e) :
    e ≠ .noServersAvailable ∧ e ≠ .allAttemptsFailed := by
  simp only [ServerList.select_server] at h
  split at h
  · cases Except.error.inj h
    exact ⟨by simp, by simp⟩
  · rename_i v _
    split at h
    · rename_i e2 hg
      cases Except.error.inj h
      rcases get_servers_error_shape api _ _ hg with ⟨msg, rfl⟩ | ⟨msg, rfl⟩ <;>
        exact ⟨by simp, by simp⟩
    · split at h
      · cases Except.error.inj h
        exact ⟨by simp, by simp⟩
      · exact absurd h (by simp)

theorem select_server_some_ok_nonempty (api : SpeedtestApi)
    (s : List Char) (l : List Server)
    (h : ServerList.select_server api (some s) = .ok l) : l ≠ [] := by
  simp only [ServerList.select_server] at h
  split at h
  · exact absurd h (by simp)
  · split at h
    · exact absurd h (by simp)
    · split at h
      · exact absurd h (by simp)
      · rename_i hne
        have hl := (Except.ok.inj h).symm
        subst hl
        intro hnil
        rw [hnil] at hne
        exact hne rfl

theorem ellipsizeSpec_of_short (t : List Char) (m : Nat)
    (h : t.length ≤ m) : ellipsizeSpec t m = t := by
  simp [ellipsizeSpec, Nat.not_lt.mpr h]

/-! ## Claim theorems -/

/-- C4: `calculate_mbps` is exactly division by 1,000,000: for every
bits-per-second value `b`, `calculate_mbps b = b / 1000000`;
`calculate_mbps 0 = 0`; and the conversion is monotonically
non-decreasing. (Pure/deterministic/side-effect-free is inherent in the
embedding: `calculate_mbps` is a function.) -/
theorem calculate_mbps_spec :
    (∀ b : ℚ, SpeedTest.calculate_mbps b = b / 1000000) ∧
    SpeedTest.calculate_mbps 0 = 0 ∧
    (∀ a b : ℚ, a ≤ b →
      SpeedTest.calculate_mbps a ≤ SpeedTest.calculate_mbps b) := by
  refine ⟨fun b => rfl, by simp [SpeedTest.calculate_mbps], fun a b h => ?_⟩
  simp only [SpeedTest.calculate_mbps, MBPS_DIVISOR]
  exact div_le_div_of_nonneg_right h (by norm_num)

/-- Witness for C4: the monotonicity clause at `2 ≤ 3`. -/
theorem calculate_mbps_spec_witness :
    (2 : ℚ) ≤ 3 ∧
    SpeedTest.calculate_mbps 2 ≤ SpeedTest.calculate_mbps 3 :=
  ⟨by norm_num, calculate_mbps_spec.2.2 2 3 (by norm_num)⟩

/-- C5 (amended): the truncation contract of `ellipsize` holds for
`len t > m` provided additionally `3 ≤ m` (for `m < 3` the code panics,
see `ellipsize_underflow_cex`): the result has length exactly `m`, ends
with `"..."`, and its first `m - 3` characters are the first `m - 3`
characters of `t`; and for `len t ≤ m` the text is returned unchanged. -/
theorem ellipsize_truncation_spec (t : List Char) (m : Nat) :
    (3 ≤ m → m < t.length →
      ∃ r, ellipsize t m = some r ∧ r.length = m ∧
        ['.', '.', '.'] <:+ r ∧ r.take (m - 3) = t.take (m - 3)) ∧
    (t.length ≤ m → ellipsize t m = some t) := by
  constructor
  · intro h3 hlen
    have htake : (t.take (m - 3)).length = m - 3 := by
      rw [List.length_take]; omega
    refine ⟨t.take (m - 3) ++ ['.', '.', '.'], ?_, ?_, ?_, ?_⟩
    · simp [ellipsize, gt_iff_lt, hlen, Nat.not_lt.mpr h3]
    · rw [List.length_append, htake]; simp; omega
    · exact List.suffix_append _ _
    · rw [List.take_left' htake]
  · intro h
    simp [ellipsize, gt_iff_lt, Nat.not_lt.mpr h]

/-- Counterexample for C5 as stated: at `t = "abcd"`, `m = 2` we have
`len t > m`, yet `ellipsize` does not return a string of length `m` — the
`max_len - 3` subtraction underflows and the code panics (modelled as
`none`). -/
theorem ellipsize_underflow_cex :
    2 < (['a', 'b', 'c', 'd'] : List Char).length ∧
    ellipsize ['a', 'b', 'c', 'd'] 2 = none := by
  decide

/-- Witness for C5: the truncation clause at `t = "abcdefghi"`, `m = 8`. -/
theorem ellipsize_truncation_spec_witness :
    ∃ r, ellipsize ['a', 'b', 'c', 'd', 'e', 'f', 'g', 'h', 'i'] 8 =
        some r ∧
      r.length = 8 ∧ ['.', '.', '.'] <:+ r ∧
      r.take (8 - 3) =
        (['a', 'b', 'c', 'd', 'e', 'f', 'g', 'h', 'i'] : List Char).take
          (8 - 3) :=
  (ellipsize_truncation_spec ['a', 'b', 'c', 'd', 'e', 'f', 'g', 'h', 'i']
    8).1 (by norm_num) (by decide)

/-- C6 (amended): `ellipsize` evaluates totally, without reaching the
panicking branch, whenever `3 ≤ max_len` or the text already fits; for
`max_len < 3` with longer text the code panics (see
`ellipsize_below_marker_cex`). -/
theorem ellipsize_total_of_marker_fits (t : List Char) (m : Nat)
    (h : 3 ≤ m ∨ t.length ≤ m) : (ellipsize t m).isSome := by
  unfold ellipsize
  split
  · rename_i hgt
    have h3 : ¬ m < 3 := by
      rcases h with h | h
      · omega
      · exact absurd hgt (by omega)
    rw [if_neg h3]
    rfl
  · rfl

/-- Counterexample for C6 as stated: at text `"hello"` and `max_len = 1`
(below the 3-character marker) the code panics rather than evaluating to
a result. -/
theorem ellipsize_below_marker_cex :
    ellipsize ['h', 'e', 'l', 'l', 'o'] 1 = none ∧
    (ellipsize ['h', 'e', 'l', 'l', 'o'] 1).isSome = false := by
  decide

/-- Witness for C6: totality at `t = "x"`, `m = 3`. -/
theorem ellipsize_total_of_marker_fits_witness :
    (3 ≤ 3 ∨ (['x'] : List Char).length ≤ 3) ∧
    (ellipsize ['x'] 3).isSome :=
  ⟨Or.inl (by norm_num),
   ellipsize_total_of_marker_fits ['x'] 3 (Or.inl (by norm_num))⟩

theorem foldl_append_rows_congr (f g : Server → List Char) :
    ∀ (servers : List Server) (init : List Char),
      (∀ s ∈ servers, f s = g s) →
      servers.foldl (fun output s => output ++ f s) init =
        servers.foldl (fun output s => output ++ g s) init := by
  intro servers
  induction servers with
  | nil => intro init _; rfl
  | cons s rest ih =>
    intro init h
    simp only [List.foldl_cons]
    rw [h s (List.mem_cons_self s rest)]
    exact ih _ (fun x hx => h x (List.mem_cons_of_mem s hx))

/-- C7: under the crate contract that `servers_sorted_by_distance` returns
a distance-sorted list, `select_server none` returns at most 3 servers
(`DEFAULT_SERVER_COUNT`), ordered by non-decreasing distance, and the
result is a prefix of the catalog's distance-sorted server list. -/
theorem select_server_none_nearest3 (api : SpeedtestApi)
    (l : List Server)
    (hsort : ∀ raw config,
      ((api.sortedByDistance raw config).map stToServer).Pairwise
        (fun a b => a.distance_km ≤ b.distance_km))
    (h : ServerList.select_server api none = .ok l) :
    l.length ≤ 3 ∧
    l.Pairwise (fun a b => a.distance_km ≤ b.distance_km) ∧
    ∃ config raw, api.getConfiguration = .ok config ∧
      api.getServerListWithConfig config = .ok raw ∧
      l <+: ((api.sortedByDistance raw config).map stToServer) := by
  simp only [ServerList.select_server, ServerList.get_servers,
    DEFAULT_SERVER_COUNT] at h
  split at h
  · exact absurd h (by simp)
  · rename_i config hc
    split at h
    · exact absurd h (by simp)
    · rename_i raw hs
      have hl : l =
          ((api.sortedByDistance raw config).take 3).map stToServer :=
        (Except.ok.inj h).symm
      subst hl
      rw [List.map_take]
      have hp := hsort raw config
      refine ⟨?_, ?_, config, raw, hc, hs, ?_⟩
      · exact List.length_take_le 3 _
      · exact List.Pairwise.sublist (List.take_sublist _ _) hp
      · exact List.take_prefix _ _

/-- Witness for C7: the demo catalog, whose constant distance sort is
ascending. -/
theorem select_server_none_nearest3_witness :
    demoTop3.length ≤ 3 ∧
    demoTop3.Pairwise (fun a b => a.distance_km ≤ b.distance_km) ∧
    ∃ config raw, demoApi.getConfiguration = .ok config ∧
      demoApi.getServerListWithConfig config = .ok raw ∧
      demoTop3 <+: ((demoApi.sortedByDistance raw config).map stToServer) :=
  select_server_none_nearest3 demoApi demoTop3
    (fun raw config => by
      change (List.map stToServer demoRaw).Pairwise
        (fun a b => a.distance_km ≤ b.distance_km)
      decide)
    (by decide)

/-- C8 (amended): an id string the `u32` parse rejects makes
`select_server` fail with `InvalidServerId` — uniformly in the catalog
API, hence before and independent of any network fetch — and an id string
the `u32` parse accepts never yields `InvalidServerId`. (The spec's
broader "parses as a non-negative integer" condition is refuted by
`select_server_u32_overflow_cex`: a numeral ≥ 2^32 is rejected.) -/
theorem select_server_invalid_id_spec :
    (∀ (api : SpeedtestApi) (s : List Char), parseU32 s = none →
      ServerList.select_server api (some s) = .error .invalidServerId) ∧
    (∀ (api : SpeedtestApi) (s : List Char) (v : Nat), parseU32 s = some v →
      ServerList.select_server api (some s) ≠ .error .invalidServerId) := by
  constructor
  · intro api s h
    simp [ServerList.select_server, h]
  · intro api s v h hcontra
    simp only [ServerList.select_server, h] at hcontra
    split at hcontra
    · rename_i e2 hg
      cases Except.error.inj hcontra
      rcases get_servers_error_shape api _ _ hg with ⟨msg, hmsg⟩ | ⟨msg, hmsg⟩ <;>
        exact absurd hmsg (by simp)
    · split at hcontra
      · exact absurd (Except.error.inj hcontra) (by simp)
      · exact absurd hcontra (by simp)

/-- Counterexample for C8 as stated: `"4294967296"` (= 2^32) is a
non-negative integer numeral, yet `select_server` rejects it with
`InvalidServerId`, because the code parses ids as `u32`. -/
theorem select_server_u32_overflow_cex :
    isNonNegIntegerString "4294967296".toList = true ∧
    ServerList.select_server demoApi (some "4294967296".toList) =
      .error .invalidServerId := by
  constructor
  · decide
  · decide

/-- Witness for C8: the unparseable id `"abc"` against the (healthy) demo
catalog. -/
theorem select_server_invalid_id_spec_witness :
    parseU32 ['a', 'b', 'c'] = none ∧
    ServerList.select_server demoApi (some ['a', 'b', 'c']) =
      .error .invalidServerId :=
  ⟨by decide,
   select_server_invalid_id_spec.1 demoApi ['a', 'b', 'c'] (by decide)⟩

/-- C10 (implicit): a successful `select_server (some id)` yields a
non-empty list, all of whose entries carry the parsed id, and which is an
order-preserving sublist of the nearest-10 fetch; consequently `execute`
with an explicit server id never fails with `NoServersAvailable`. -/
theorem select_server_explicit_id_spec :
    (∀ (api : SpeedtestApi) (s : List Char) (l : List Server),
      ServerList.select_server api (some s) = .ok l →
      l ≠ [] ∧
      (∃ v, parseU32 s = some v ∧ ∀ srv ∈ l, srv.id = v) ∧
      ∃ full, ServerList.get_servers api TOP_X_NUM_SERVERS = .ok full ∧
        l.Sublist full) ∧
    (∀ (api : SpeedtestApi) (eng : Engine) (cfg : AppConfig)
      (s : List Char), cfg.server = some s →
      (SpeedTest.execute api eng cfg).2 ≠ .error .noServersAvailable) := by
  constructor
  · intro api s l h
    refine ⟨select_server_some_ok_nonempty api s l h, ?_, ?_⟩
    · simp only [ServerList.select_server] at h
      split at h
      · exact absurd h (by simp)
      · rename_i v hp
        split at h
        · exact absurd h (by simp)
        · rename_i full hg
          split at h
          · exact absurd h (by simp)
          · have hl := (Except.ok.inj h).symm
            subst hl
            refine ⟨v, hp, fun srv hsrv => ?_⟩
            have := List.of_mem_filter hsrv
            simpa using this
    · simp only [ServerList.select_server] at h
      split at h
      · exact absurd h (by simp)
      · split at h
        · exact absurd h (by simp)
        · rename_i full hg
          split at h
          · exact absurd h (by simp)
          · have hl := (Except.ok.inj h).symm
            subst hl
            exact ⟨full, hg, List.filter_sublist _⟩
  · intro api eng cfg s hs hcontra
    simp only [SpeedTest.execute, AppConfig.server_id, hs] at hcontra
    split at hcontra
    · rename_i e hsel
      exact (select_server_some_error_shape api s e hsel).1
        (Except.error.inj hcontra)
    · rename_i servers hsel
      have hne : servers ≠ [] :=
        select_server_some_ok_nonempty api s servers hsel
      have hEmpty : servers.isEmpty = false := by
        cases servers with
        | nil => exact absurd rfl hne
        | cons _ _ => rfl
      rw [hEmpty] at hcontra
      simp only [Bool.false_eq_true, if_false] at hcontra
      rcases attemptLoop_nonempty_result
          (fun server =>
            (SpeedTest.run api eng { server := server,
                                     direction := cfg.direction }).2)
          (.error .unexpectedLoopEnd) servers [] hne with hall | ⟨r, hr⟩
      · rw [hcontra] at hall
        exact absurd (Except.error.inj hall) (by simp)
      · have := hr.symm.trans hcontra
        exact absurd this (by simp)

/-- Witness for C10: the explicit id `"3"` against the demo catalog
selects exactly the demo server with id 3. -/
theorem select_server_explicit_id_spec_witness :
    [demoServer3] ≠ [] ∧
    (∃ v, parseU32 ['3'] = some v ∧
      ∀ srv ∈ [demoServer3], srv.id = v) ∧
    ∃ full, ServerList.get_servers demoApi TOP_X_NUM_SERVERS = .ok full ∧
      List.Sublist [demoServer3] full :=
  select_server_explicit_id_spec.1 demoApi ['3'] [demoServer3] (by decide)

/-- C1: for every candidate sequence returned by server selection, the
orchestrator tries candidates in order and returns the result of the
first candidate whose session succeeds; the failures of all earlier
candidates are logged (they appear, in order, in the failure log), not
raised, and no later candidate is attempted (the log covers exactly the
candidates before the first success). Stated for both
`SpeedTest::execute` and the `test.rs` variant `do_test_config`. -/
theorem execute_first_success_spec :
    (∀ (api : SpeedtestApi) (eng : Engine) (cfg : AppConfig)
      (servers : List Server) (i : Nat) (hi : i < servers.length)
      (r : SpeedTestResult),
      ServerList.select_server api cfg.server_id = .ok servers →
      (∀ j (hj : j < i), ∃ e,
        (SpeedTest.run api eng
          { server := servers.get ⟨j, lt_trans hj hi⟩,
            direction := cfg.direction }).2 = .error e) →
      (SpeedTest.run api eng
        { server := servers.get ⟨i, hi⟩,
          direction := cfg.direction }).2 = .ok r →
      (SpeedTest.execute api eng cfg).2 = .ok r ∧
      (SpeedTest.execute api eng cfg).1.map Prod.fst =
        (servers.take i).map Server.id) ∧
    (∀ (api : SpeedtestApi) (eng : Engine) (cfg : Config)
      (servers : List Server) (i : Nat) (hi : i < servers.length),
      ServerList.select_server api cfg.server = .ok servers →
      (∀ j (hj : j < i), ∃ e,
        Test.run api eng
          { server := servers.get ⟨j, lt_trans hj hi⟩,
            direction := cfg.direction } = .error e) →
      Test.run api eng
        { server := servers.get ⟨i, hi⟩,
          direction := cfg.direction } = .ok () →
      (do_test_config api eng cfg).2 = .ok () ∧
      (do_test_config api eng cfg).1.map Prod.fst =
        (servers.take i).map Server.id) := by
  constructor
  · intro api eng cfg servers i hi r hsel hfail hsucc
    have hne : servers.isEmpty = false := by
      cases servers with
      | nil => exact absurd hi (by simp)
      | cons _ _ => rfl
    have step := attemptLoop_first_success
      (fun server =>
        (SpeedTest.run api eng { server := server,
                                 direction := cfg.direction }).2)
      (.error .unexpectedLoopEnd) servers [] i hi r hfail hsucc
    simpa [SpeedTest.execute, hsel, hne] using step
  · intro api eng cfg servers i hi hsel hfail hsucc
    have hne : servers.isEmpty = false := by
      cases servers with
      | nil => exact absurd hi (by simp)
      | cons _ _ => rfl
    have step := attemptLoop_first_success
      (fun server =>
        Test.run api eng { server := server,
                           direction := cfg.direction })
      (.ok ()) servers [] i hi () hfail hsucc
    simpa [do_test_config, hsel, hne] using step

/-- Witness for C1 (the spec's own instance): 3 candidates, first two
sessions fail, third succeeds; `execute` returns the third's result and
the log holds exactly the first two candidates' failures. -/
theorem execute_first_success_spec_witness :
    (SpeedTest.execute demoApi engThirdWorks cfgBoth).2 = .ok demoResult3 ∧
    (SpeedTest.execute demoApi engThirdWorks cfgBoth).1.map Prod.fst =
      (demoTop3.take 2).map Server.id :=
  execute_first_success_spec.1 demoApi engThirdWorks cfgBoth demoTop3 2
    (by decide) demoResult3 (by decide)
    (fun j hj =>
      match j, hj with
      | 0, _ => ⟨Err.downloadFailed "net", rfl⟩
      | 1, _ => ⟨Err.downloadFailed "net", rfl⟩
      | n + 2, h => absurd h (by omega))
    rfl

/-- C2: when every candidate's session fails, the orchestrator fails with
`AllAttemptsFailed`, and the failure log holds exactly one entry per
candidate, in candidate order (each candidate attempted exactly once, the
next only after the previous failed). Stated for both
`SpeedTest::execute` and the `test.rs` variant `do_test_config`. -/
theorem execute_exhaustion_spec :
    (∀ (api : SpeedtestApi) (eng : Engine) (cfg : AppConfig)
      (servers : List Server),
      ServerList.select_server api cfg.server_id = .ok servers →
      servers ≠ [] →
      (∀ s ∈ servers, ∃ e,
        (SpeedTest.run api eng
          { server := s, direction := cfg.direction }).2 = .error e) →
      (SpeedTest.execute api eng cfg).2 = .error .allAttemptsFailed ∧
      (SpeedTest.execute api eng cfg).1.map Prod.fst =
        servers.map Server.id) ∧
    (∀ (api : SpeedtestApi) (eng : Engine) (cfg : Config)
      (servers : List Server),
      ServerList.select_server api cfg.server = .ok servers →
      servers ≠ [] →
      (∀ s ∈ servers, ∃ e,
        Test.run api eng
          { server := s, direction := cfg.direction } = .error e) →
      (do_test_config api eng cfg).2 = .error .allAttemptsFailed ∧
      (do_test_config api eng cfg).1.map Prod.fst =
        servers.map Server.id) := by
  constructor
  · intro api eng cfg servers hsel hne hfail
    have hEmpty : servers.isEmpty = false := by
      cases servers with
      | nil => exact absurd rfl hne
      | cons _ _ => rfl
    have step := attemptLoop_all_fail
      (fun server =>
        (SpeedTest.run api eng { server := server,
                                 direction := cfg.direction }).2)
      (.error .unexpectedLoopEnd) servers [] hne hfail
    simpa [SpeedTest.execute, hsel, hEmpty] using step
  · intro api eng cfg servers hsel hne hfail
    have hEmpty : servers.isEmpty = false := by
      cases servers with
      | nil => exact absurd rfl hne
      | cons _ _ => rfl
    have step := attemptLoop_all_fail
      (fun server =>
        Test.run api eng { server := server,
                           direction := cfg.direction })
      (.ok ()) servers [] hne hfail
    simpa [do_test_config, hsel, hEmpty] using step

/-- Witness for C2: all three demo candidates fail (N = 3), `execute`
fails with `AllAttemptsFailed` and logged exactly the three ids in
order. -/
theorem execute_exhaustion_spec_witness :
    (SpeedTest.execute demoApi engFailAll cfgBoth).2 =
      .error .allAttemptsFailed ∧
    (SpeedTest.execute demoApi engFailAll cfgBoth).1.map Prod.fst =
      demoTop3.map Server.id :=
  execute_exhaustion_spec.1 demoApi engFailAll cfgBoth demoTop3
    (by decide) (by decide)
    (fun s _ => ⟨Err.downloadFailed "connection reset", rfl⟩)

/-- C3: `SpeedTest::run_test` calls the download engine exactly when the
direction is Download or Both, the upload engine only when the direction
is Upload or Both (and then only after a successful download leg, or when
no download was requested), with the download call preceding the upload
call; a download-engine failure makes the session return that failure
immediately, with the upload engine never called; on success, the
result's `download` field is `Some` iff download was requested and its
`upload` field is `Some` iff upload was requested. -/
theorem run_test_direction_spec (eng : Engine) (config : SpeedTestConfig)
    (t : SpeedTest) :
    (EngineCall.download ∈ (SpeedTest.run_test eng config t).1 ↔
      t.should_download = true) ∧
    ((SpeedTest.run_test eng config t).1 = [] ∨
      (SpeedTest.run_test eng config t).1 = [.download] ∨
      (SpeedTest.run_test eng config t).1 = [.upload] ∨
      (SpeedTest.run_test eng config t).1 = [.download, .upload]) ∧
    (∀ e, t.should_download = true →
      eng.download config t.server.to_speedtest_server = .error e →
      (SpeedTest.run_test eng config t).2 = .error (.downloadFailed e) ∧
      EngineCall.upload ∉ (SpeedTest.run_test eng config t).1) ∧
    (EngineCall.upload ∈ (SpeedTest.run_test eng config t).1 →
      t.should_upload = true) ∧
    (t.should_upload = true →
      (t.should_download = true →
        ∃ b, eng.download config t.server.to_speedtest_server = .ok b) →
      EngineCall.upload ∈ (SpeedTest.run_test eng config t).1) ∧
    (∀ r, (SpeedTest.run_test eng config t).2 = .ok r →
      r.server = t.server ∧
      (r.download.isSome ↔ t.should_download = true) ∧
      (r.upload.isSome ↔ t.should_upload = true)) := by
  obtain ⟨srv, dir⟩ := t
  cases dir <;>
    cases hd : eng.download config (Server.to_speedtest_server srv) <;>
    cases hu : eng.upload config (Server.to_speedtest_server srv) <;>
    simp_all [SpeedTest.run_test, SpeedTest.run_download_test,
      SpeedTest.run_upload_test, SpeedTest.should_download,
      SpeedTest.should_upload, Except.map]

/-- Witness for C3: the always-failing engine, direction Both — session
fails with the download failure and the upload engine is never called. -/
theorem run_test_direction_spec_witness :
    (SpeedTest.run_test engFailAll {}
      { server := demoServer3, direction := .Both }).2 =
      .error (.downloadFailed "connection reset") ∧
    EngineCall.upload ∉
      (SpeedTest.run_test engFailAll {}
        { server := demoServer3, direction := .Both }).1 :=
  (run_test_direction_spec engFailAll {}
    { server := demoServer3, direction := .Both }).2.2.1
    "connection reset" (by decide) (by decide)

set_option maxRecDepth 10000 in
/-- Counterexample for C9 as stated: `format_table` does not ellipsize —
on a server whose sponsor is 25 characters long, the rendered table
differs from the spec's layout (which truncates it to 20 characters with
a marker): the full sponsor text appears in the row. -/
theorem format_table_no_ellipsize_cex :
    ServerList.format_table demoWideList ≠ formatTableSpec demoWideList := by
  decide

/-- C9 (amended): `format_table` renders the fixed-width table with
columns ID (10), Sponsor (30), Name (40), Distance (10, two decimal
places), but pads the raw sponsor/name text without first ellipsizing it
(ellipsizing belongs to `Server`'s `Display` form); consequently it
agrees with the spec's ellipsized layout exactly on lists whose sponsor
and name fields are at most 20 characters long. -/
theorem format_table_spec_short_fields (l : ServerList)
    (h : ∀ s ∈ l.servers, s.sponsor.length ≤ MAX_SPONSOR_LENGTH ∧
      s.name.length ≤ MAX_NAME_LENGTH) :
    ServerList.format_table l = formatTableSpec l := by
  unfold ServerList.format_table formatTableSpec
  refine foldl_append_rows_congr formatRow formatRowSpec l.servers
    tableHeading (fun s hs => ?_)
  unfold formatRow formatRowSpec
  rw [ellipsizeSpec_of_short _ _ (h s hs).1,
    ellipsizeSpec_of_short _ _ (h s hs).2]

/-- Witness for C9: a list whose fields fit in 20 characters renders
identically under both layouts. -/
theorem format_table_spec_short_fields_witness :
    ServerList.format_table demoNarrowList = formatTableSpec demoNarrowList :=
  format_table_spec_short_fields demoNarrowList (by decide)
